import Mathlib

/-!
Verification of the FarmOps SMS command interpretation engine
(`app/parser.py`): a shallow embedding of `CommandParser.parse`, its
per-intent slot extractors, and `generate_response`, together with
theorems settling the specification's claims about them.

Modelling conventions:
* Python `str` is Lean `String`; character-level scanning works on
  `List Char` (ASCII case mapping, as in the source's inputs).
* Python `float` is `ℚ` (the parser only ever builds floats from decimal
  literals, so rational arithmetic is exact).
* `datetime.date` is a `Date` structure; `date.today()` is passed in as
  an explicit `today` parameter, making `parse` a pure function.
* Python dicts holding command slots are association lists in insertion
  order (`Params`); dict assignment is `setP` (replace in place, append
  if the key is new), matching CPython's ordered-dict semantics.
* The one fallible operation, `float()` applied to the price capture of
  `_parse_sale` (which can raise `ValueError` on captures like `"1..5"`),
  makes `parse` return `Except String ParsedCommand`.
* Each `re.search` call of the source is embedded as a dedicated scanner
  that tries the pattern at every start position, left to right, with the
  backtracking behaviour of the concrete pattern reproduced exactly.
-/

set_option maxHeartbeats 1000000

namespace FarmOps

/-- Calendar date, standing in for Python's `datetime.date`. -/
structure Date where
  year : Nat
  month : Nat
  day : Nat
deriving DecidableEq, Repr

/-- Scalar slot value (Python str / int / float / date / None). -/
inductive Prim where
  | pstr : String → Prim
  | pint : Int → Prim
  | pnum : ℚ → Prim
  | pdate : Date → Prim
  | pnone : Prim
deriving DecidableEq, Repr

/-- Slot value: a scalar, a nested mapping (the Query `filter` dict), or a
list (only appearing in executor results rendered by `generate_response`). -/
inductive Value where
  | prim : Prim → Value
  | pdict : List (String × Prim) → Value
  | plist : List Prim → Value
deriving DecidableEq, Repr

/-- Shorthand for a string slot value. -/
def vstr (s : String) : Value := Value.prim (Prim.pstr s)

/-- Shorthand for the explicit absent marker (Python `None`). -/
def vnone : Value := Value.prim Prim.pnone

/-- Slot mapping in insertion order (Python dict). -/
abbrev Params := List (String × Value)

/-- The closed intent enumeration (`CommandType` in the source). -/
inductive CommandType where
  | add_cattle
  | move
  | health
  | sale
  | query
  | status
  | help
  | unknown
deriving DecidableEq, Repr

/-- `ParsedCommand` dataclass of the source. -/
structure ParsedCommand where
  command_type : CommandType
  params : Params
  confidence : ℚ
  raw_text : String
deriving DecidableEq, Repr

/-- First value bound to key `k` (Python `dict[k]` / `dict.get(k)`). -/
def getParam (ps : Params) (k : String) : Option Value :=
  match ps with
  | [] => none
  | (k', v) :: rest => if k' == k then some v else getParam rest k

/-- Dict assignment `d[k] = v`: replace the value in place if the key is
present, otherwise append the new binding (CPython insertion order). -/
def setP {α : Type} (ps : List (String × α)) (k : String) (v : α) :
    List (String × α) :=
  match ps with
  | [] => [(k, v)]
  | (k', v') :: rest => if k' == k then (k, v) :: rest else (k', v') :: setP rest k v

/-- First value bound to key `k` in a primitive mapping. -/
def getPr (ps : List (String × Prim)) (k : String) : Option Prim :=
  match ps with
  | [] => none
  | (k', v) :: rest => if k' == k then some v else getPr rest k

/-! ### Character classes and string utilities (Python semantics, ASCII) -/

/-- Regex `\d` (ASCII). -/
def isPyDigit (c : Char) : Bool := '0' ≤ c && c ≤ '9'

/-- Regex `\w` (ASCII part, which is all the source's inputs use). -/
def isPyWord (c : Char) : Bool :=
  isPyDigit c || ('a' ≤ c && c ≤ 'z') || ('A' ≤ c && c ≤ 'Z') || c == '_'

/-- Regex `\s` / `str.strip` whitespace. -/
def isPySpace (c : Char) : Bool :=
  c == ' ' || c == '\t' || c == '\n' || c == '\r' || c == '\x0b' || c == '\x0c'

/-- ASCII lowercase of a character list (Python `str.lower`). -/
def lowerCL (l : List Char) : List Char := l.map Char.toLower

/-- ASCII uppercase of a character list (Python `str.upper`). -/
def upperCL (l : List Char) : List Char := l.map Char.toUpper

/-- Python `str.lower`. -/
def lowerStr (s : String) : String := ⟨lowerCL s.data⟩

/-- Python `str.upper`. -/
def upperStr (s : String) : String := ⟨upperCL s.data⟩

/-- Take leading whitespace off a character list. -/
def trimL (l : List Char) : List Char := l.dropWhile isPySpace

/-- Take trailing whitespace off a character list. -/
def trimR (l : List Char) : List Char := (l.reverse.dropWhile isPySpace).reverse

/-- Python `str.strip()`. -/
def pyStrip (s : String) : String := ⟨trimR (trimL s.data)⟩

/-- Python `str.title()`: letters that follow a non-letter are uppercased,
letters that follow a letter are lowercased (ASCII cased = alphabetic). -/
def titleGo (prevAlpha : Bool) : List Char → List Char
  | [] => []
  | c :: rest =>
    let alpha := ('a' ≤ c && c ≤ 'z') || ('A' ≤ c && c ≤ 'Z')
    (if alpha then (if prevAlpha then c.toLower else c.toUpper) else c) ::
      titleGo alpha rest

/-- Python `str.title()` on a character list. -/
def titleCL (l : List Char) : List Char := titleGo false l

/-- `startsLit needle hay`: if `hay` begins with the literal `needle`,
return the remaining characters. -/
def startsLit : List Char → List Char → Option (List Char)
  | [], hay => some hay
  | _ :: _, [] => none
  | n :: ns, h :: hs => if h == n then startsLit ns hs else none

/-- Python substring test `needle in hay`. -/
def hasSub (needle : List Char) : List Char → Bool
  | [] => (startsLit needle []).isSome
  | c :: t => (startsLit needle (c :: t)).isSome || hasSub needle t

/-- Python substring test on strings: `sub in hay`. -/
def containsStr (hay sub : String) : Bool := hasSub sub.data hay.data

/-- `re.search`: try the position matcher `f` at every start position from
left to right; the first position where it succeeds wins. -/
def scan {α : Type} (f : List Char → Option α) : List Char → Option α
  | [] => f []
  | c :: t =>
    match f (c :: t) with
    | some a => some a
    | none => scan f t

/-- Maximal run satisfying `p`, requiring at least one character
(a greedy `X+`): returns the run and the remainder. -/
def run1 (p : Char → Bool) (l : List Char) : Option (List Char × List Char) :=
  let a := l.takeWhile p
  if a.isEmpty then none else some (a, l.drop a.length)

/-- Greedy `\s*`. -/
def skipSp (l : List Char) : List Char := l.dropWhile isPySpace

/-- Greedy `\s+`: fails unless at least one whitespace character. -/
def sp1 (l : List Char) : Option (List Char) :=
  if (l.takeWhile isPySpace).isEmpty then none else some (skipSp l)

/-- Greedy `\s+` that also returns the consumed characters (needed when the
whitespace is part of a capture group). -/
def sp1cap (l : List Char) : Option (List Char × List Char) := run1 isPySpace l

/-- Digit string to number (`int()` on a `\d+` capture). -/
def natOfDigits (l : List Char) : Nat :=
  l.foldl (fun a c => a * 10 + (c.toNat - 48)) 0

/-- Zero-padded two-digit field of `strftime`. -/
def pad2 (n : Nat) : String := if n < 10 then "0" ++ toString n else toString n

/-- `date.strftime('%m%d')`. -/
def mmdd (d : Date) : String := pad2 d.month ++ pad2 d.day

/-- `str(date)` (ISO form), used when a date is interpolated into output. -/
def dateIso (d : Date) : String :=
  toString d.year ++ "-" ++ pad2 d.month ++ "-" ++ pad2 d.day

/-- `date.today() - timedelta(days=1)` (proleptic Gregorian, as Python). -/
def isLeap (y : Nat) : Bool := y % 4 == 0 && (y % 100 != 0 || y % 400 == 0)

/-- Days in a month of the Gregorian calendar. -/
def daysInMonth (y m : Nat) : Nat :=
  if m == 2 then (if isLeap y then 29 else 28)
  else if m == 4 || m == 6 || m == 9 || m == 11 then 30
  else 31

/-- The day before `d`. -/
def prevDay (d : Date) : Date :=
  if 1 < d.day then ⟨d.year, d.month, d.day - 1⟩
  else if d.month == 1 then ⟨d.year - 1, 12, 31⟩
  else ⟨d.year, d.month - 1, daysInMonth d.year (d.month - 1)⟩

/-- `date.today().replace(day=1)`. -/
def firstOfMonth (d : Date) : Date := ⟨d.year, d.month, 1⟩

/-- `float()` restricted to the shapes the price capture `[\d.]+` can
produce: valid when it has at least one digit and at most one dot;
otherwise Python raises `ValueError`, encoded here as `none`. -/
def pyFloat (s : String) : Option ℚ :=
  let cs := s.data
  if cs.any isPyDigit && cs.count '.' ≤ 1 then
    let ip := cs.takeWhile (fun c => c != '.')
    let fp := (cs.dropWhile (fun c => c != '.')).drop 1
    some ((natOfDigits ip : ℚ) + (natOfDigits fp : ℚ) / (10 : ℚ) ^ fp.length)
  else none

/-! ### Position matchers for the source's regular expressions

Each `…At` function tries its pattern at one start position (a suffix of
the input) and returns the capture; `scan` turns it into `re.search`.
Alternations are tried in the pattern's order; greedy pieces whose
backtracking can never succeed (e.g. `\w+` followed by `\s+`, whose
character classes are disjoint) are taken maximally. -/

/-- Try literal alternatives in order; on each that matches, run `tail` on
the remainder, falling through to the next alternative on failure
(Python's ordered alternation with backtracking). -/
def altTail {α : Type} (alts : List (List Char)) (tail : List Char → Option α) :
    List Char → Option α
  | l =>
    match alts with
    | [] => none
    | a :: rest =>
      match startsLit a l with
      | some r =>
        match tail r with
        | some x => some x
        | none => altTail rest tail l
      | none => altTail rest tail l

/-- Like `altTail`, but the capture is the alternative itself and the tail
is a plain test (for `(north|south|…)\s+(?:pasture|field)`). -/
def altSelf (alts : List (List Char)) (tail : List Char → Bool) :
    List Char → Option (List Char)
  | l =>
    match alts with
    | [] => none
    | a :: rest =>
      match startsLit a l with
      | some r => if tail r then some a else altSelf rest tail l
      | none => altSelf rest tail l

/-- `(?:tag\s*#?\s*)(\w+)` — first tag pattern of `_parse_add`. -/
def tagAt1 (l : List Char) : Option (List Char) :=
  match startsLit "tag".data l with
  | none => none
  | some r =>
    let r := skipSp r
    match r with
    | '#' :: r2 => (run1 isPyWord (skipSp r2)).map Prod.fst
    | _ => (run1 isPyWord r).map Prod.fst

/-- `#(\d+)` — second tag pattern of `_parse_add`. -/
def tagAt2 (l : List Char) : Option (List Char) :=
  match l with
  | '#' :: r => (run1 isPyDigit r).map Prod.fst
  | _ => none

/-- `(\w+)\s+tag` — third tag pattern of `_parse_add`. -/
def tagAt3 (l : List Char) : Option (List Char) :=
  match run1 isPyWord l with
  | none => none
  | some (w, r) =>
    match sp1 r with
    | none => none
    | some r2 => if (startsLit "tag".data r2).isSome then some w else none

/-- `(?:number|num|no\.?)\s*(\d+)` — fourth tag pattern of `_parse_add`. -/
def tagAt4 (l : List Char) : Option (List Char) :=
  let tail := fun r => (run1 isPyDigit (skipSp r)).map Prod.fst
  match altTail ["number".data, "num".data] tail l with
  | some x => some x
  | none =>
    match startsLit "no".data l with
    | none => none
    | some r =>
      match r with
      | '.' :: r2 =>
        match tail r2 with
        | some x => some x
        | none => tail r
      | _ => tail r

/-- The four tag patterns of `_parse_add`, searched in order; the first
pattern that matches anywhere supplies the capture. -/
def addTagSearch (l : List Char) : Option (List Char) :=
  match scan tagAt1 l with
  | some x => some x
  | none =>
    match scan tagAt2 l with
    | some x => some x
    | none =>
      match scan tagAt3 l with
      | some x => some x
      | none => scan tagAt4 l

/-- `(\w+\s+)?<loc>` — location phrase of `_parse_add` (returns group 0). -/
def locAt (loc : List Char) (l : List Char) : Option (List Char) :=
  let withWord :=
    match run1 isPyWord l with
    | none => none
    | some (w, r) =>
      match sp1cap r with
      | none => none
      | some (s, r2) =>
        if (startsLit loc r2).isSome then some (w ++ s ++ loc) else none
  match withWord with
  | some x => some x
  | none => if (startsLit loc l).isSome then some loc else none

/-- `(?:A|B|…)\s*(\d+)` — the numeric-id pattern of `_parse_move`,
`_parse_event` (prefixes cow/bull/calf/steer/heifer/#) and `_parse_query`
(prefixes cow/bull/calf/is/#). -/
def idNumAt (alts : List (List Char)) (l : List Char) : Option (List Char) :=
  altTail alts (fun r => (run1 isPyDigit (skipSp r)).map Prod.fst) l

/-- `(\d+)\s*(?:head|steers?|heifers?|cows?|bulls?)` of `_parse_sale`. -/
def headAt (l : List Char) : Option (List Char) :=
  match run1 isPyDigit l with
  | none => none
  | some (d, r) =>
    let r := skipSp r
    if ["head", "steer", "heifer", "cow", "bull"].any
        (fun w => (startsLit w.data r).isSome) then some d else none

/-- `sold\s+(\d+)` of `_parse_sale`. -/
def soldAt (l : List Char) : Option (List Char) :=
  match startsLit "sold".data l with
  | none => none
  | some r =>
    match sp1 r with
    | none => none
    | some r2 => (run1 isPyDigit r2).map Prod.fst

/-- `\$?([\d.]+)\s*(?:/|\s*per\s*)?(?:lb|pound)` of `_parse_sale`. -/
def priceAt (l : List Char) : Option (List Char) :=
  let l1 := match l with | '$' :: r => r | _ => l
  match run1 (fun c => isPyDigit c || c == '.') l1 with
  | none => none
  | some (cap, r) =>
    let r := skipSp r
    let tailOk := fun (x : List Char) =>
      (startsLit "lb".data x).isSome || (startsLit "pound".data x).isSome
    match r with
    | '/' :: r2 => if tailOk r2 then some cap else none
    | _ =>
      match startsLit "per".data r with
      | some r2 =>
        if tailOk (skipSp r2) then some cap
        else if tailOk r then some cap else none
      | none => if tailOk r then some cap else none

/-- `(\d+)\s*(?:lb|lbs|pounds?)|avg\s+(\d+)|average\s+(\d+)` of
`_parse_sale`; whichever group captured, the digits are returned. -/
def weightAt (l : List Char) : Option (List Char) :=
  let alt1 :=
    match run1 isPyDigit l with
    | none => none
    | some (d, r) =>
      let r := skipSp r
      if (startsLit "lb".data r).isSome || (startsLit "pound".data r).isSome
      then some d else none
  match alt1 with
  | some x => some x
  | none =>
    match altTail ["avg".data] (fun r => sp1 r) l with
    | some r2 => ((run1 isPyDigit r2).map Prod.fst).orElse
        (fun _ => altTail ["average".data]
          (fun r => sp1 r >>= fun r2 => (run1 isPyDigit r2).map Prod.fst) l)
    | none => altTail ["average".data]
        (fun r => sp1 r >>= fun r2 => (run1 isPyDigit r2).map Prod.fst) l

/-- Nouns closing the first move-location pattern. -/
def pastNouns : List (List Char) :=
  ["pasture", "field", "pen", "barn", "corral"].map String.data

/-- Tail `(\w+\s+(?:pasture|field|pen|barn|corral))` of the first
move-location pattern (the capture group). -/
def movTail1 (r : List Char) : Option (List Char) :=
  match run1 isPyWord r with
  | none => none
  | some (w, r2) =>
    match sp1cap r2 with
    | none => none
    | some (s, r3) =>
      match pastNouns.find? (fun n => (startsLit n r3).isSome) with
      | some n => some (w ++ s ++ n)
      | none => none

/-- `(?:to|in|at)\s+(?:the\s+)?` followed by tail `k`, with the optional
`the\s+` tried first and backtracked on failure. -/
def toInAtThe {α : Type} (k : List Char → Option α) (l : List Char) : Option α :=
  altTail ["to".data, "in".data, "at".data]
    (fun r =>
      match sp1 r with
      | none => none
      | some r1 =>
        match startsLit "the".data r1 with
        | some r2 =>
          match sp1 r2 with
          | some r3 =>
            match k r3 with
            | some x => some x
            | none => k r1
          | none => k r1
        | none => k r1) l

/-- `(?:to|in|at)\s+(?:the\s+)?(\w+\s+(?:pasture|field|pen|barn|corral))`
— first move-location pattern. -/
def movLocAt1 (l : List Char) : Option (List Char) := toInAtThe movTail1 l

/-- `(?:to|in|at)\s+(?:the\s+)?(\w+)` — second move-location pattern. -/
def movLocAt2 (l : List Char) : Option (List Char) :=
  toInAtThe (fun r => (run1 isPyWord r).map Prod.fst) l

/-- `(north|south|east|west|back|front|main|new)\s+(?:pasture|field)`
— third move-location pattern. -/
def movLocAt3 (l : List Char) : Option (List Char) :=
  altSelf (["north", "south", "east", "west", "back", "front", "main",
    "new"].map String.data)
    (fun r =>
      match sp1 r with
      | none => false
      | some r2 =>
        (startsLit "pasture".data r2).isSome || (startsLit "field".data r2).isSome)
    l

/-- The three move-location patterns, searched in order. -/
def movLocSearch (l : List Char) : Option (List Char) :=
  match scan movLocAt1 l with
  | some x => some x
  | none =>
    match scan movLocAt2 l with
    | some x => some x
    | none => scan movLocAt3 l

/-- `(.+)$` applied to the remainder in `_infer_command`: succeeds when the
remainder is non-empty and newline-free, or consists of a non-empty
newline-free body followed by a single final newline. -/
def dollarTail (rest : List Char) : Option (List Char) :=
  if rest.isEmpty then none
  else if !(rest.contains '\n') then some rest
  else if rest.getLast? == some '\n' then
    let body := rest.dropLast
    if body.isEmpty || body.contains '\n' then none else some body
  else none

/-- Backtracking of the greedy `\s+` in `^(\d+)\s+(.+)$`: hand back
whitespace characters to the `(.+)` group one at a time. -/
def inferTryK : Nat → List Char → Option (List Char)
  | 0, _ => none
  | k + 1, r1 =>
    match dollarTail (r1.drop (k + 1)) with
    | some g => some g
    | none => inferTryK k r1

/-- `re.search(r"^(\d+)\s+(.+)$", text)` of `_infer_command`: leading
digits, at least one whitespace character, then the rest of the line. -/
def inferSearch (t : List Char) : Option (List Char × List Char) :=
  match run1 isPyDigit t with
  | none => none
  | some (d, r1) =>
    let w := r1.takeWhile isPySpace
    if w.isEmpty then none
    else (inferTryK w.length r1).map (fun g => (d, g))

/-! ### Lexical tables (class attributes of `CommandParser`) -/

/-- Cattle type synonyms, in the source's dict order. -/
def CATTLE_TYPES : List (String × List String) :=
  [("calf", ["calf", "calve", "baby", "newborn"]),
   ("cow", ["cow", "mama", "momma", "mother", "dam"]),
   ("bull", ["bull", "sire", "daddy"]),
   ("steer", ["steer", "steers"]),
   ("heifer", ["heifer", "heifers", "young cow"])]

/-- Event type patterns, in the source's dict order. -/
def EVENT_TYPES : List (String × List String) :=
  [("vet", ["vet", "veterinarian", "doctor", "checkup", "check up", "check-up"]),
   ("treatment", ["treat", "treatment", "medicine", "medicate", "dose", "shot", "vaccine"]),
   ("birth", ["born", "birth", "calved", "calving", "dropped"]),
   ("death", ["died", "dead", "death", "passed", "lost"]),
   ("note", ["note", "notes", "comment", "observe", "saw"])]

/-- Location keywords. -/
def LOCATIONS : List String :=
  ["pasture", "field", "barn", "corral", "pen", "woods", "hayfield"]

/-- Query keywords. -/
def QUERY_WORDS : List String :=
  ["how many", "count", "total", "list", "show", "what", "where", "status"]

/-- Condition keywords of `_parse_event`. -/
def conditionWords : List String :=
  ["pink eye", "pinkeye", "limp", "limping", "sick", "fever",
   "bloat", "prolapse", "mastitis", "foot rot", "scours", "pneumonia"]

/-- Color list of `_parse_add`. -/
def colorWords : List String :=
  ["red", "blue", "green", "yellow", "white", "black", "orange"]

/-- Literal inputs mapped to the Help intent. -/
def helpLiterals : List String := ["help", "?", "commands", "what can you do"]

/-- Literal inputs mapped to the Status intent. -/
def statusLiterals : List String := ["status", "overview", "summary", "stats"]

/-! ### Classifier trigger predicates (the `any(…)` checks of `parse`) -/

/-- Rule 3: the input contains a query trigger phrase. -/
def queryTrigger (lower : String) : Bool :=
  QUERY_WORDS.any (fun w => containsStr lower w)

/-- Rule 4: the input contains a sale trigger. -/
def saleTrigger (lower : String) : Bool :=
  ["sold", "sale", "sell"].any (fun w => containsStr lower w)

/-- Rule 5: the input contains a health/event synonym of any category. -/
def eventTrigger (lower : String) : Bool :=
  EVENT_TYPES.any (fun p => p.2.any (fun w => containsStr lower w))

/-- Rule 6: the input contains a move trigger. -/
def moveTrigger (lower : String) : Bool :=
  ["moved", "move", "moving", "went", "put", "in the", "to the"].any
    (fun w => containsStr lower w)

/-- Rule 7: the input contains an add trigger. -/
def addTrigger (lower : String) : Bool :=
  ["add", "new", "born", "bought", "got"].any (fun w => containsStr lower w)

/-! ### Slot extractors (`_parse_add`, `_parse_move`, `_parse_event`,
`_parse_sale`, `_parse_query`, `_infer_command`) -/

/-- Initial parameter dict of `_parse_add`. -/
def addParams0 : Params :=
  [("type", vstr "calf"), ("breed", vstr "Angus"), ("birth_date", vnone),
   ("tag", vnone), ("location", vnone), ("notes", vnone)]

/-- Cattle-type detection loop of `_parse_add`: first category with any
matching synonym wins. -/
def addTypeStep (lower : String) (p : Params) : Params :=
  match CATTLE_TYPES.find? (fun ct => ct.2.any (fun k => containsStr lower k)) with
  | some ct => setP p "type" (vstr ct.1)
  | none => p

/-- Tag extraction of `_parse_add` (four patterns, uppercased), falling
back to the synthesized `NEW-MMDD` placeholder. -/
def addTagStep (today : Date) (lower : String) (p : Params) : Params :=
  match addTagSearch lower.data with
  | some cap => setP p "tag" (vstr ⟨upperCL cap⟩)
  | none => setP p "tag" (vstr ("NEW-" ++ mmdd today))

/-- `today` / `yesterday` birth-date detection of `_parse_add`. -/
def addDateStep (today : Date) (lower : String) (p : Params) : Params :=
  if containsStr lower "today" then
    setP p "birth_date" (Value.prim (Prim.pdate today))
  else if containsStr lower "yesterday" then
    setP p "birth_date" (Value.prim (Prim.pdate (prevDay today)))
  else p

/-- Color-as-notes step of `_parse_add`: the first color found sets the
notes, and overwrites the tag only when it still equals the synthesized
placeholder. -/
def addColorStep (today : Date) (lower : String) (p : Params) : Params :=
  match colorWords.find? (fun c => containsStr lower c) with
  | none => p
  | some color =>
    let p1 := setP p "notes"
      (vstr (if containsStr lower "tag" then color ++ " tag" else color))
    if getParam p1 "tag" == some (vstr ("NEW-" ++ mmdd today)) then
      setP p1 "tag" (vstr (upperStr color ++ "-" ++ mmdd today))
    else p1

/-- Location step of `_parse_add`: first location keyword present in the
text selects the `(\w+\s+)?<loc>` phrase, title-cased. -/
def addLocStep (lower : String) (p : Params) : Params :=
  match LOCATIONS.find? (fun loc => containsStr lower loc) with
  | none => p
  | some loc =>
    match scan (locAt loc.data) lower.data with
    | some g => setP p "location" (vstr ⟨titleCL g⟩)
    | none => p

/-- `_parse_add`. -/
def parseAdd (today : Date) (text lower : String) : ParsedCommand :=
  let p := addParams0
  let p := addTypeStep lower p
  let p := addTagStep today lower p
  let p := addDateStep today lower p
  let p := addColorStep today lower p
  let p := addLocStep lower p
  ⟨CommandType.add_cattle, p, 8/10, text⟩

/-- Alternatives of the numeric-id pattern shared by move and event. -/
def moveIdAlts : List (List Char) :=
  ["cow", "bull", "calf", "steer", "heifer", "#"].map String.data

/-- Alternatives of the numeric-id pattern of the query location branch. -/
def queryIdAlts : List (List Char) :=
  ["cow", "bull", "calf", "is", "#"].map String.data

/-- An optional string slot: `None` when the pattern did not match. -/
def optValStr : Option String → Value
  | some s => vstr s
  | none => vnone

/-- `_parse_move`. The captures are non-empty strings, so Python's
truthiness test `params["tag"] and params["location"]` coincides with
both options being `some`. -/
def parseMove (text lower : String) : ParsedCommand :=
  let tag := (scan (idNumAt moveIdAlts) lower.data).map
    (fun d => (⟨d⟩ : String))
  let loc := (movLocSearch lower.data).map
    (fun g => (⟨titleCL g⟩ : String))
  ⟨CommandType.move, [("tag", optValStr tag), ("location", optValStr loc)],
    if tag.isSome && loc.isSome then 9/10 else 6/10, text⟩

/-- Initial parameter dict of `_parse_event`. -/
def eventParams0 (today : Date) (text : String) : Params :=
  [("tag", vnone), ("event_type", vstr "note"), ("details", vstr text),
   ("date", Value.prim (Prim.pdate today))]

/-- `_parse_event`. -/
def parseEvent (today : Date) (text lower : String) : ParsedCommand :=
  let p := eventParams0 today text
  let p :=
    match EVENT_TYPES.find? (fun et => et.2.any (fun k => containsStr lower k)) with
    | some et => setP p "event_type" (vstr et.1)
    | none => p
  let p :=
    match scan (idNumAt moveIdAlts) lower.data with
    | some d => setP p "tag" (vstr ⟨d⟩)
    | none => p
  let p :=
    match conditionWords.find? (fun c => containsStr lower c) with
    | some c => setP p "details" (vstr ⟨titleCL c.data⟩)
    | none => p
  ⟨CommandType.health, p, 85/100, text⟩

/-- Initial parameter dict of `_parse_sale`. -/
def saleParams0 (today : Date) : Params :=
  [("head_count", Value.prim (Prim.pint 1)), ("price_per_lb", vnone),
   ("avg_weight", vnone), ("cattle_type", vstr "steer"), ("buyer", vnone),
   ("date", Value.prim (Prim.pdate today))]

/-- Head-count extraction of `_parse_sale`: the head/animal-noun pattern,
then the `sold N` fallback. -/
def saleHeadStep (lower : String) (p : Params) : Params :=
  match scan headAt lower.data with
  | some d => setP p "head_count" (Value.prim (Prim.pint (natOfDigits d)))
  | none =>
    match scan soldAt lower.data with
    | some d => setP p "head_count" (Value.prim (Prim.pint (natOfDigits d)))
    | none => p

/-- Weight and cattle-type steps of `_parse_sale`, then the result record. -/
def saleFinish (text lower : String) (p : Params) : ParsedCommand :=
  let p :=
    match scan weightAt lower.data with
    | some d => setP p "avg_weight" (Value.prim (Prim.pnum (natOfDigits d)))
    | none => p
  let p :=
    match ["steer", "heifer", "cow", "bull", "calf"].find?
        (fun c => containsStr lower c) with
    | some c => setP p "cattle_type" (vstr c)
    | none => p
  ⟨CommandType.sale, p, 9/10, text⟩

/-- `_parse_sale`. `float()` on the price capture is the one operation that
can raise (`ValueError` on captures such as `"1..5"`), hence the `Except`. -/
def parseSale (today : Date) (text lower : String) : Except String ParsedCommand :=
  let p := saleHeadStep lower (saleParams0 today)
  match scan priceAt lower.data with
  | some cap =>
    match pyFloat ⟨cap⟩ with
    | some q =>
      Except.ok (saleFinish text lower (setP p "price_per_lb" (Value.prim (Prim.pnum q))))
    | none => Except.error "could not convert string to float"
  | none => Except.ok (saleFinish text lower p)

/-- Assignment `params["filter"][k] = v` of `_parse_query` (the filter is
always a dict there). -/
def setFilter (p : Params) (k : String) (v : Prim) : Params :=
  match getParam p "filter" with
  | some (Value.pdict fl) => setP p "filter" (Value.pdict (setP fl k v))
  | _ => p

/-- Filter-by-type loop of `_parse_query`: iterates over the cattle-type
category *names* only (not their synonym lists). -/
def queryTypeFilter (lower : String) (p : Params) : Params :=
  match CATTLE_TYPES.find? (fun ct => containsStr lower ct.1) with
  | some ct => setFilter p "type" (Prim.pstr ct.1)
  | none => p

/-- `_parse_query`. -/
def parseQuery (today : Date) (text lower : String) : ParsedCommand :=
  let p0 : Params := [("query_type", vstr "count"), ("filter", Value.pdict [])]
  let p :=
    if containsStr lower "where" then
      let p1 := setP p0 "query_type" (vstr "location")
      match scan (idNumAt queryIdAlts) lower.data with
      | some d => setFilter p1 "tag" (Prim.pstr ⟨d⟩)
      | none => p1
    else if ["how many", "count", "total"].any (fun w => containsStr lower w) then
      let p1 := setP p0 "query_type" (vstr "count")
      let p1 := queryTypeFilter lower p1
      if containsStr lower "this month" || containsStr lower "month" then
        setFilter p1 "since" (Prim.pdate (firstOfMonth today))
      else if containsStr lower "this year" || containsStr lower "year" ||
          containsStr lower "ytd" then
        setFilter p1 "since" (Prim.pdate ⟨today.year, 1, 1⟩)
      else if containsStr lower "today" then
        setFilter p1 "since" (Prim.pdate today)
      else p1
    else if containsStr lower "list" || containsStr lower "show" ||
        containsStr lower "all" then
      queryTypeFilter lower (setP p0 "query_type" (vstr "list"))
    else p0
  ⟨CommandType.query, p, 85/100, text⟩

/-- Distress keywords of `_infer_command`. -/
def distressWords : List String := ["sick", "limping", "down", "problem"]

/-- `_infer_command`: the fallback inference. The anchored pattern runs on
the case-preserved text; the remainder is lowercased before the distress
check and stored lowercased as the details. (The `lower` argument exists
in the source's signature but is unused there too.) -/
def inferCommand (text _lower : String) : ParsedCommand :=
  match inferSearch text.data with
  | some (d, g) =>
    let rest := lowerCL g
    if distressWords.any (fun w => hasSub w.data rest) then
      ⟨CommandType.health,
        [("tag", vstr ⟨d⟩), ("event_type", vstr "note"),
         ("details", vstr ⟨rest⟩)], 7/10, text⟩
    else ⟨CommandType.unknown, [("raw", vstr text)], 0, text⟩
  | none => ⟨CommandType.unknown, [("raw", vstr text)], 0, text⟩

/-- Body of `CommandParser.parse` after the initial `text.strip()`:
the fixed-priority classifier cascade. -/
def parseCore (today : Date) (text : String) : Except String ParsedCommand :=
  let lower := lowerStr text
  if helpLiterals.contains lower then
    Except.ok ⟨CommandType.help, [], 1, text⟩
  else if statusLiterals.contains lower then
    Except.ok ⟨CommandType.status, [], 1, text⟩
  else if queryTrigger lower then Except.ok (parseQuery today text lower)
  else if saleTrigger lower then parseSale today text lower
  else if eventTrigger lower then Except.ok (parseEvent today text lower)
  else if moveTrigger lower then Except.ok (parseMove text lower)
  else if addTrigger lower then Except.ok (parseAdd today text lower)
  else Except.ok (inferCommand text lower)

/-- `CommandParser.parse`: strip the input, then run the cascade. -/
def parse (today : Date) (input : String) : Except String ParsedCommand :=
  parseCore today (pyStrip input)

/-! ### Response renderer (`generate_response`) -/

/-- Python `str()` of a scalar slot value, for f-string interpolation.
(The decimal rendering of non-integral rationals is cosmetic; every value
the parser interpolates is a string, an integer or `None`.) -/
def numRepr (q : ℚ) : String :=
  if q.den == 1 then toString q.num ++ ".0"
  else
    match (List.range 28).find? (fun e => (q * (10 : ℚ) ^ e).den == 1) with
    | some e =>
      let n := (q * (10 : ℚ) ^ e).num
      let ds := (toString n.natAbs).data
      let ds := if ds.length ≤ e then List.replicate (e + 1 - ds.length) '0' ++ ds else ds
      (if n < 0 then "-" else "") ++ (⟨ds.take (ds.length - e)⟩ : String) ++ "."
        ++ (⟨ds.drop (ds.length - e)⟩ : String)
    | none => toString q.num ++ "/" ++ toString q.den

/-- Python `repr()` of a scalar, used inside rendered containers. -/
def reprPrim : Prim → String
  | Prim.pstr s => "\x27" ++ s ++ "\x27"
  | Prim.pint n => toString n
  | Prim.pnum q => numRepr q
  | Prim.pdate d =>
    "datetime.date(" ++ toString d.year ++ ", " ++ toString d.month ++ ", "
      ++ toString d.day ++ ")"
  | Prim.pnone => "None"

/-- Python `str()` of a scalar. -/
def pyStrPrim : Prim → String
  | Prim.pstr s => s
  | Prim.pint n => toString n
  | Prim.pnum q => numRepr q
  | Prim.pdate d => dateIso d
  | Prim.pnone => "None"

/-- Python `str()` of a slot value. -/
def pyStrV : Value → String
  | Value.prim p => pyStrPrim p
  | Value.pdict fl =>
    "\x7b" ++ String.intercalate ", "
      (fl.map (fun kv => "\x27" ++ kv.1 ++ "\x27: " ++ reprPrim kv.2)) ++ "\x7d"
  | Value.plist ps => "[" ++ String.intercalate ", " (ps.map reprPrim) ++ "]"

/-- Round half to even, as Python's fixed-point formatting does. -/
def rndHalfEven (q : ℚ) : ℤ :=
  let f := ⌊q⌋
  let r := q - f
  if r < 1 / 2 then f
  else if 1 / 2 < r then f + 1
  else if f % 2 == 0 then f else f + 1

/-- Insert thousands separators into a reversed digit list. -/
def commaGroup : List Char → List Char
  | a :: b :: c :: d :: rest => a :: b :: c :: ',' :: commaGroup (d :: rest)
  | l => l

/-- Python `format(x, ',.0f')`: round to an integer, comma-group. -/
def moneyFmt (q : ℚ) : String :=
  let n := rndHalfEven q
  (if n < 0 then "-" else "")
    ++ (⟨(commaGroup (toString n.natAbs).data.reverse).reverse⟩ : String)

/-- `format(x, ',.0f')` applied to a slot value (a non-numeric value would
raise `TypeError` in Python and never occurs). -/
def moneyFmtV : Value → String
  | Value.prim (Prim.pint n) => moneyFmt n
  | Value.prim (Prim.pnum q) => moneyFmt q
  | _ => ""

/-- `d.get(k, dflt)`. -/
def getD (ps : Params) (k : String) (dflt : Value) : Value :=
  (getParam ps k).getD dflt

/-- The static help text returned for the Help intent. -/
def helpText : String :=
  "FarmOps Commands:\n• Add calf born today red tag\n• Cow 42 moved to north pasture  \n• How many calves this month\n• Vet visit cow 15 pink eye\n• Sold 5 steers $1.85/lb avg 1100\n• Status (for overview)\n• Help (this message)"

/-- The display amount recomputed by the Sale branch of
`generate_response`: `(price_per_lb or 0) * (avg_weight or 0) * head_count`
(Python's `or 0` maps `None` to `0`). -/
def saleAmt (p : Params) : ℚ :=
  let num := fun (v : Value) =>
    match v with
    | Value.prim (Prim.pnum q) => q
    | Value.prim (Prim.pint n) => (n : ℚ)
    | _ => 0
  num (getD p "price_per_lb" (Value.prim (Prim.pint 0)))
    * num (getD p "avg_weight" (Value.prim (Prim.pint 0)))
    * (match getParam p "head_count" with
       | some (Value.prim (Prim.pint n)) => (n : ℚ)
       | some (Value.prim (Prim.pnum q)) => q
       | _ => 1)

/-- `generate_response`: one fixed template per intent, generic fallback
for anything not explicitly handled. -/
def generate_response (command : ParsedCommand) (result : Params) : String :=
  if command.command_type == CommandType.help then helpText
  else if command.command_type == CommandType.status then
    "🐄 Farm Status:\nTotal: " ++ pyStrV (getD result "total_head" (Value.prim (Prim.pint 0)))
      ++ " head\nCalves YTD: " ++ pyStrV (getD result "calves_ytd" (Value.prim (Prim.pint 0)))
      ++ "\nSales YTD: " ++ pyStrV (getD result "sales_ytd_head" (Value.prim (Prim.pint 0)))
      ++ " head ($" ++ moneyFmtV (getD result "sales_ytd_amount" (Value.prim (Prim.pint 0))) ++ ")"
  else if command.command_type == CommandType.add_cattle then
    "✓ Added " ++ pyStrV (getD command.params "type" (vstr "cattle"))
      ++ " - tag " ++ pyStrV (getD result "tag" (vstr "N/A"))
  else if command.command_type == CommandType.move then
    "✓ Moved #" ++ pyStrV (getD command.params "tag" vnone)
      ++ " to " ++ pyStrV (getD command.params "location" vnone)
  else if command.command_type == CommandType.health then
    "✓ Logged " ++ pyStrV (getD command.params "event_type" vnone)
      ++ " for #" ++ pyStrV (getD command.params "tag" vnone)
      ++ ": " ++ pyStrV (getD command.params "details" vnone)
  else if command.command_type == CommandType.sale then
    "✓ Recorded sale: " ++ pyStrV (getD command.params "head_count" vnone)
      ++ " " ++ pyStrV (getD command.params "cattle_type" vnone)
      ++ "(s) - $" ++ moneyFmt (saleAmt command.params)
  else if command.command_type == CommandType.query then
    if getParam command.params "query_type" == some (vstr "count") then
      let fdesc :=
        match getD command.params "filter" (Value.pdict []) with
        | Value.pdict fl => (getPr fl "type").elim "cattle" pyStrPrim
        | _ => "cattle"
      "Count: " ++ pyStrV (getD result "count" (Value.prim (Prim.pint 0))) ++ " " ++ fdesc
    else if getParam command.params "query_type" == some (vstr "location") then
      let tag :=
        match getParam command.params "filter" with
        | some (Value.pdict fl) => (getPr fl "tag").elim "None" pyStrPrim
        | _ => "None"
      "#" ++ tag ++ " is at " ++ pyStrV (getD result "location" (vstr "unknown"))
    else if getParam command.params "query_type" == some (vstr "list") then
      let n :=
        match getParam result "cattle" with
        | some (Value.plist ps) => ps.length
        | _ => 0
      "Found " ++ toString n ++ " cattle. Check dashboard for full list."
    else "Command received. Check dashboard for details."
  else "Command received. Check dashboard for details."

/-! ### Basic lemmas -/

lemma trimR_eq_rdropWhile (l : List Char) : trimR l = List.rdropWhile isPySpace l := rfl

lemma trimL_trimR_trimL (l : List Char) :
    trimL (trimR (trimL l)) = trimR (trimL l) := by
  unfold trimL
  rw [List.dropWhile_eq_self_iff]
  intro hl
  have hpre : trimR (l.dropWhile isPySpace) <+: l.dropWhile isPySpace := by
    rw [trimR_eq_rdropWhile]
    exact List.rdropWhile_prefix _ _
  have hlen : 0 < (l.dropWhile isPySpace).length :=
    lt_of_lt_of_le hl hpre.length_le
  have hget : (trimR (l.dropWhile isPySpace)).get ⟨0, hl⟩ =
      (l.dropWhile isPySpace).get ⟨0, hlen⟩ := by
    simp only [List.get_eq_getElem]
    exact hpre.getElem hl
  rw [hget]
  exact List.dropWhile_get_zero_not isPySpace l hlen

lemma pyStrip_idem (s : String) : pyStrip (pyStrip s) = pyStrip s := by
  show (⟨trimR (trimL (trimR (trimL s.data)))⟩ : String) = ⟨trimR (trimL s.data)⟩
  rw [trimL_trimR_trimL, trimR_eq_rdropWhile, trimR_eq_rdropWhile,
    List.rdropWhile_idempotent]

lemma keys_setP_mem {α : Type} (ps : List (String × α)) (k : String) (v : α)
    (h : k ∈ ps.map Prod.fst) :
    (setP ps k v).map Prod.fst = ps.map Prod.fst := by
  induction ps with
  | nil => simp at h
  | cons a rest ih =>
    simp only [List.map_cons] at h
    unfold setP
    by_cases hk : a.1 == k
    · have : a.1 = k := by simpa using hk
      simp [hk, this]
    · have hne : k ≠ a.1 := fun he => hk (by simp [he])
      have hmem : k ∈ rest.map Prod.fst := by
        rcases List.mem_cons.mp h with h2 | h2
        · exact absurd h2 hne
        · exact h2
      simp [hk, ih hmem]

lemma getParam_isSome_of_mem (ps : Params) (k : String)
    (h : k ∈ ps.map Prod.fst) : (getParam ps k).isSome = true := by
  induction ps with
  | nil => simp at h
  | cons a rest ih =>
    simp only [List.map_cons] at h
    unfold getParam
    by_cases hk : a.1 == k
    · simp [hk]
    · have hne : k ≠ a.1 := fun he => hk (by simp [he])
      have hmem : k ∈ rest.map Prod.fst := by
        rcases List.mem_cons.mp h with h2 | h2
        · exact absurd h2 hne
        · exact h2
      simp [hk, ih hmem]

/-! ### Structural lemmas about the extractors -/

lemma parseQuery_ct (today : Date) (text lower : String) :
    (parseQuery today text lower).command_type = CommandType.query := rfl

lemma parseQuery_conf (today : Date) (text lower : String) :
    (parseQuery today text lower).confidence = 85 / 100 := rfl

lemma parseEvent_ct (today : Date) (text lower : String) :
    (parseEvent today text lower).command_type = CommandType.health := rfl

lemma parseEvent_conf (today : Date) (text lower : String) :
    (parseEvent today text lower).confidence = 85 / 100 := rfl

lemma parseAdd_ct (today : Date) (text lower : String) :
    (parseAdd today text lower).command_type = CommandType.add_cattle := rfl

lemma parseAdd_conf (today : Date) (text lower : String) :
    (parseAdd today text lower).confidence = 8 / 10 := rfl

lemma parseMove_ct (text lower : String) :
    (parseMove text lower).command_type = CommandType.move := rfl

lemma parseMove_conf_cases (text lower : String) :
    (parseMove text lower).confidence = 9 / 10 ∨
      (parseMove text lower).confidence = 6 / 10 := by
  simp only [parseMove]
  split <;> simp

lemma parseSale_ok (today : Date) (text lower : String) (cmd : ParsedCommand)
    (h : parseSale today text lower = Except.ok cmd) :
    cmd.command_type = CommandType.sale ∧ cmd.confidence = 9 / 10 ∧
      cmd.raw_text = text := by
  unfold parseSale at h
  rcases hp : scan priceAt lower.data with _ | cap <;> rw [hp] at h <;>
    dsimp only at h
  · simp only [Except.ok.injEq] at h
    subst h
    exact ⟨rfl, rfl, rfl⟩
  · rcases hq : pyFloat ⟨cap⟩ with _ | q <;> rw [hq] at h <;> dsimp only at h
    · simp at h
    · simp only [Except.ok.injEq] at h
      subst h
      exact ⟨rfl, rfl, rfl⟩

lemma inferCommand_cases (text lower : String) :
    ((inferCommand text lower).command_type = CommandType.health ∧
      (inferCommand text lower).confidence = 7 / 10) ∨
    ((inferCommand text lower).command_type = CommandType.unknown ∧
      (inferCommand text lower).confidence = 0) := by
  unfold inferCommand
  rcases hs : inferSearch text.data with _ | ⟨d, g⟩ <;> dsimp only
  · simp
  · split <;> simp

lemma mem_keys_of_getParam (ps : Params) (k : String) (v : Value)
    (h : getParam ps k = some v) : k ∈ ps.map Prod.fst := by
  induction ps with
  | nil => simp [getParam] at h
  | cons a rest ih =>
    unfold getParam at h
    by_cases hk : a.1 == k
    · have : a.1 = k := by simpa using hk
      simp [this]
    · simp only [hk, Bool.false_eq_true, if_false] at h
      simp [ih h]

lemma keys_setFilter (p : Params) (k : String) (v : Prim) :
    (setFilter p k v).map Prod.fst = p.map Prod.fst := by
  unfold setFilter
  split
  · rename_i fl heq
    exact keys_setP_mem _ _ _ (mem_keys_of_getParam _ _ _ heq)
  · rfl

lemma keys_queryTypeFilter (lower : String) (p : Params) :
    (queryTypeFilter lower p).map Prod.fst = p.map Prod.fst := by
  unfold queryTypeFilter
  split
  · exact keys_setFilter _ _ _
  · rfl

lemma parseQuery_keys (today : Date) (text lower : String) :
    (parseQuery today text lower).params.map Prod.fst = ["query_type", "filter"] := by
  unfold parseQuery
  dsimp only
  repeat' split
  all_goals (try simp only [keys_setFilter, keys_queryTypeFilter])
  all_goals rfl

lemma parseEvent_keys (today : Date) (text lower : String) :
    (parseEvent today text lower).params.map Prod.fst =
      ["tag", "event_type", "details", "date"] := by
  unfold parseEvent eventParams0
  dsimp only
  repeat' split
  all_goals rfl

lemma parseEvent_date (today : Date) (text lower : String) :
    getParam (parseEvent today text lower).params "date" =
      some (Value.prim (Prim.pdate today)) := by
  unfold parseEvent eventParams0
  dsimp only
  repeat' split
  all_goals rfl

lemma parseEvent_details_default (today : Date) (text lower : String)
    (h : conditionWords.find? (fun c => containsStr lower c) = none) :
    getParam (parseEvent today text lower).params "details" = some (vstr text) := by
  unfold parseEvent eventParams0
  dsimp only
  simp only [h]
  repeat' split
  all_goals rfl

/-- Keys of the AddCattle parameter dict. -/
def addKeys : List String :=
  ["type", "breed", "birth_date", "tag", "location", "notes"]

lemma keys_addTypeStep (lower : String) (p : Params)
    (h : p.map Prod.fst = addKeys) :
    (addTypeStep lower p).map Prod.fst = addKeys := by
  unfold addTypeStep
  split
  · exact (keys_setP_mem _ _ _ (by rw [h]; decide)).trans h
  · exact h

lemma keys_addTagStep (today : Date) (lower : String) (p : Params)
    (h : p.map Prod.fst = addKeys) :
    (addTagStep today lower p).map Prod.fst = addKeys := by
  unfold addTagStep
  split
  · exact (keys_setP_mem _ _ _ (by rw [h]; decide)).trans h
  · exact (keys_setP_mem _ _ _ (by rw [h]; decide)).trans h

lemma keys_addDateStep (today : Date) (lower : String) (p : Params)
    (h : p.map Prod.fst = addKeys) :
    (addDateStep today lower p).map Prod.fst = addKeys := by
  unfold addDateStep
  split
  · exact (keys_setP_mem _ _ _ (by rw [h]; decide)).trans h
  · split
    · exact (keys_setP_mem _ _ _ (by rw [h]; decide)).trans h
    · exact h

lemma keys_addColor_inner (today : Date) (p1 : Params)
    (h1 : p1.map Prod.fst = addKeys) (color : String) :
    (if getParam p1 "tag" == some (vstr ("NEW-" ++ mmdd today)) then
        setP p1 "tag" (vstr (upperStr color ++ "-" ++ mmdd today))
      else p1).map Prod.fst = addKeys := by
  split
  · exact (keys_setP_mem _ _ _ (by rw [h1]; decide)).trans h1
  · exact h1

lemma keys_addColorStep (today : Date) (lower : String) (p : Params)
    (h : p.map Prod.fst = addKeys) :
    (addColorStep today lower p).map Prod.fst = addKeys := by
  unfold addColorStep
  split
  · exact h
  · dsimp only
    exact keys_addColor_inner today _
      ((keys_setP_mem _ _ _ (by rw [h]; decide)).trans h) _

lemma keys_addLocStep (lower : String) (p : Params)
    (h : p.map Prod.fst = addKeys) :
    (addLocStep lower p).map Prod.fst = addKeys := by
  unfold addLocStep
  split
  · exact h
  · split
    · exact (keys_setP_mem _ _ _ (by rw [h]; decide)).trans h
    · exact h

lemma parseAdd_keys (today : Date) (text lower : String) :
    (parseAdd today text lower).params.map Prod.fst = addKeys := by
  unfold parseAdd
  dsimp only
  exact keys_addLocStep _ _ (keys_addColorStep _ _ _ (keys_addDateStep _ _ _
    (keys_addTagStep _ _ _ (keys_addTypeStep _ _ rfl))))

/-- Keys of the Sale parameter dict. -/
def saleKeys : List String :=
  ["head_count", "price_per_lb", "avg_weight", "cattle_type", "buyer", "date"]

lemma keys_saleHeadStep (lower : String) (p : Params)
    (h : p.map Prod.fst = saleKeys) :
    (saleHeadStep lower p).map Prod.fst = saleKeys := by
  unfold saleHeadStep
  split
  · exact (keys_setP_mem _ _ _ (by rw [h]; decide)).trans h
  · split
    · exact (keys_setP_mem _ _ _ (by rw [h]; decide)).trans h
    · exact h

lemma keys_saleFinish (text lower : String) (p : Params)
    (h : p.map Prod.fst = saleKeys) :
    (saleFinish text lower p).params.map Prod.fst = saleKeys := by
  unfold saleFinish
  dsimp only
  split
  · split
    · exact (keys_setP_mem _ _ _ (by
        rw [(keys_setP_mem _ _ _ (by rw [h]; decide)).trans h]; decide)).trans
        ((keys_setP_mem _ _ _ (by rw [h]; decide)).trans h)
    · exact (keys_setP_mem _ _ _ (by rw [h]; decide)).trans h
  · split
    · exact (keys_setP_mem _ _ _ (by rw [h]; decide)).trans h
    · exact h

lemma parseSale_ok_keys (today : Date) (text lower : String)
    (cmd : ParsedCommand) (h : parseSale today text lower = Except.ok cmd) :
    cmd.params.map Prod.fst = saleKeys := by
  unfold parseSale at h
  have hp0 : (saleHeadStep lower (saleParams0 today)).map Prod.fst = saleKeys :=
    keys_saleHeadStep _ _ rfl
  rcases hp : scan priceAt lower.data with _ | cap <;> rw [hp] at h <;>
    dsimp only at h
  · simp only [Except.ok.injEq] at h
    subst h
    exact keys_saleFinish _ _ _ hp0
  · rcases hq : pyFloat ⟨cap⟩ with _ | q <;> rw [hq] at h <;> dsimp only at h
    · simp at h
    · simp only [Except.ok.injEq] at h
      subst h
      exact keys_saleFinish _ _ _
        ((keys_setP_mem _ _ _ (by rw [hp0]; decide)).trans hp0)

lemma parseMove_keys (text lower : String) :
    (parseMove text lower).params.map Prod.fst = ["tag", "location"] := rfl

lemma move_conf_aux (t l : Option String) :
    (if (t.isSome && l.isSome) = true then (9 : ℚ) / 10 else 6 / 10) =
      if getParam [("tag", optValStr t), ("location", optValStr l)] "tag" ≠ some vnone ∧
          getParam [("tag", optValStr t), ("location", optValStr l)] "location" ≠ some vnone
      then 9 / 10 else 6 / 10 := by
  rcases t <;> rcases l <;> simp [optValStr, getParam, vstr, vnone]

lemma parseMove_conf_iff (text lower : String) :
    (parseMove text lower).confidence =
      if getParam (parseMove text lower).params "tag" ≠ some vnone ∧
          getParam (parseMove text lower).params "location" ≠ some vnone
      then 9 / 10 else 6 / 10 := by
  simp only [parseMove]
  exact move_conf_aux _ _

lemma parseQuery_raw (today : Date) (text lower : String) :
    (parseQuery today text lower).raw_text = text := rfl

lemma parseEvent_raw (today : Date) (text lower : String) :
    (parseEvent today text lower).raw_text = text := rfl

lemma parseAdd_raw (today : Date) (text lower : String) :
    (parseAdd today text lower).raw_text = text := rfl

lemma parseMove_raw (text lower : String) :
    (parseMove text lower).raw_text = text := rfl

lemma inferCommand_raw (text lower : String) :
    (inferCommand text lower).raw_text = text := by
  unfold inferCommand
  rcases hs : inferSearch text.data with _ | ⟨d, g⟩ <;> dsimp only
  split <;> rfl

lemma inferCommand_shape (text lower : String) :
    (∃ d r, inferCommand text lower =
      ⟨CommandType.health,
        [("tag", vstr d), ("event_type", vstr "note"), ("details", vstr r)],
        7 / 10, text⟩) ∨
    inferCommand text lower =
      ⟨CommandType.unknown, [("raw", vstr text)], 0, text⟩ := by
  unfold inferCommand
  rcases hs : inferSearch text.data with _ | ⟨d, g⟩ <;> dsimp only
  · right
    rfl
  · split
    · left
      exact ⟨⟨d⟩, ⟨lowerCL g⟩, rfl⟩
    · right
      rfl

lemma string_mem_of_contains {l : List String} {s : String}
    (h : l.contains s = true) : s ∈ l :=
  List.mem_of_elem_eq_true h

lemma conf_iff_helper {c : ℚ} {t : CommandType} (hc : c ≠ 0)
    (ht : t ≠ CommandType.unknown) : c = 0 ↔ t = CommandType.unknown := by
  constructor <;> intro hx
  · exact absurd hx hc
  · exact absurd hx ht

/-- C1: for every input string accepted by `parse`, the returned
`ParsedCommand` has confidence 0 exactly when its intent is Unknown:
every Unknown result has confidence 0 and every classified intent carries
confidence strictly greater than 0. -/
theorem C1_confidence_zero_iff_unknown (today : Date) (input : String)
    (cmd : ParsedCommand) (h : parse today input = Except.ok cmd) :
    cmd.confidence = 0 ↔ cmd.command_type = CommandType.unknown := by
  unfold parse parseCore at h
  dsimp only at h
  split_ifs at h with hc1 hc2 hc3 hc4 hc5 hc6 hc7
  · simp only [Except.ok.injEq] at h
    subst h
    exact conf_iff_helper (by norm_num) (by simp)
  · simp only [Except.ok.injEq] at h
    subst h
    exact conf_iff_helper (by norm_num) (by simp)
  · simp only [Except.ok.injEq] at h
    subst h
    rw [parseQuery_conf, parseQuery_ct]
    exact conf_iff_helper (by norm_num) (by simp)
  · obtain ⟨hct, hcf, -⟩ := parseSale_ok _ _ _ _ h
    rw [hct, hcf]
    exact conf_iff_helper (by norm_num) (by simp)
  · simp only [Except.ok.injEq] at h
    subst h
    rw [parseEvent_conf, parseEvent_ct]
    exact conf_iff_helper (by norm_num) (by simp)
  · simp only [Except.ok.injEq] at h
    subst h
    rcases parseMove_conf_cases (pyStrip input) (lowerStr (pyStrip input)) with
      hcf | hcf <;> rw [hcf, parseMove_ct] <;>
      exact conf_iff_helper (by norm_num) (by simp)
  · simp only [Except.ok.injEq] at h
    subst h
    rw [parseAdd_conf, parseAdd_ct]
    exact conf_iff_helper (by norm_num) (by simp)
  · simp only [Except.ok.injEq] at h
    subst h
    rcases inferCommand_cases (pyStrip input) (lowerStr (pyStrip input)) with
      ⟨hct, hcf⟩ | ⟨hct, hcf⟩ <;> rw [hct, hcf]
    · exact conf_iff_helper (by norm_num) (by simp)
    · simp

/-- Witness for C1 at the concrete unclassifiable input `"xyz nonsense"`. -/
theorem C1_confidence_zero_iff_unknown_witness :
    parse ⟨2026, 10, 12⟩ "xyz nonsense" =
      Except.ok ⟨CommandType.unknown, [("raw", vstr "xyz nonsense")], 0,
        "xyz nonsense"⟩ ∧
    ((⟨CommandType.unknown, [("raw", vstr "xyz nonsense")], 0,
        "xyz nonsense"⟩ : ParsedCommand).confidence = 0 ↔
      (⟨CommandType.unknown, [("raw", vstr "xyz nonsense")], 0,
        "xyz nonsense"⟩ : ParsedCommand).command_type = CommandType.unknown) :=
  ⟨rfl, C1_confidence_zero_iff_unknown ⟨2026, 10, 12⟩ "xyz nonsense" _ rfl⟩

/-- C2 counterexample: `"sold vet show"` contains `"sold"` and the health
keyword `"vet"`, yet `parse` classifies it as Query (the query check
precedes the sale check), so the unconditional claim is false. -/
theorem C2_counterexample :
    containsStr (lowerStr (pyStrip "sold vet show")) "sold" = true ∧
    eventTrigger (lowerStr (pyStrip "sold vet show")) = true ∧
    parse ⟨2026, 10, 12⟩ "sold vet show" =
      Except.ok ⟨CommandType.query,
        [("query_type", vstr "list"), ("filter", Value.pdict [])],
        85 / 100, "sold vet show"⟩ ∧
    CommandType.query ≠ CommandType.sale :=
  ⟨rfl, rfl, rfl, by decide⟩

/-- C2 amended: for every input containing `"sold"` and a health/event
keyword and *no query trigger phrase*, every command `parse` returns is
classified Sale, not Health (the sale check precedes the health check). -/
theorem C2_sold_over_health_amended (today : Date) (input : String)
    (h1 : containsStr (lowerStr (pyStrip input)) "sold" = true)
    (h2 : eventTrigger (lowerStr (pyStrip input)) = true)
    (h3 : queryTrigger (lowerStr (pyStrip input)) = false)
    (cmd : ParsedCommand) (h : parse today input = Except.ok cmd) :
    cmd.command_type = CommandType.sale ∧
      cmd.command_type ≠ CommandType.health := by
  have hsale : saleTrigger (lowerStr (pyStrip input)) = true := by
    unfold saleTrigger
    simp [h1]
  unfold parse parseCore at h
  dsimp only at h
  split_ifs at h with hc1 hc2 hc3
  · exfalso
    have hm := string_mem_of_contains hc1
    simp only [helpLiterals, List.mem_cons, List.mem_singleton,
      List.not_mem_nil, or_false] at hm
    rcases hm with he | he | he | he <;> rw [he] at h1 <;>
      exact absurd h1 (by decide)
  · exfalso
    have hm := string_mem_of_contains hc2
    simp only [statusLiterals, List.mem_cons, List.mem_singleton,
      List.not_mem_nil, or_false] at hm
    rcases hm with he | he | he | he <;> rw [he] at h1 <;>
      exact absurd h1 (by decide)
  · exfalso
    rw [h3] at hc3
    exact absurd hc3 (by decide)
  · obtain ⟨hct, -, -⟩ := parseSale_ok _ _ _ _ h
    rw [hct]
    exact ⟨rfl, by decide⟩

/-- Witness for the amended C2 at `"sold dead cow"`. -/
theorem C2_sold_over_health_witness :
    containsStr (lowerStr (pyStrip "sold dead cow")) "sold" = true ∧
    eventTrigger (lowerStr (pyStrip "sold dead cow")) = true ∧
    queryTrigger (lowerStr (pyStrip "sold dead cow")) = false ∧
    ((⟨CommandType.sale,
        [("head_count", Value.prim (Prim.pint 1)), ("price_per_lb", vnone),
         ("avg_weight", vnone), ("cattle_type", vstr "cow"), ("buyer", vnone),
         ("date", Value.prim (Prim.pdate ⟨2026, 10, 12⟩))], 9 / 10,
        "sold dead cow"⟩ : ParsedCommand).command_type = CommandType.sale ∧
      (⟨CommandType.sale,
        [("head_count", Value.prim (Prim.pint 1)), ("price_per_lb", vnone),
         ("avg_weight", vnone), ("cattle_type", vstr "cow"), ("buyer", vnone),
         ("date", Value.prim (Prim.pdate ⟨2026, 10, 12⟩))], 9 / 10,
        "sold dead cow"⟩ : ParsedCommand).command_type ≠ CommandType.health) :=
  ⟨by decide, by decide, by decide,
    C2_sold_over_health_amended ⟨2026, 10, 12⟩ "sold dead cow" (by decide)
      (by decide) (by decide) _ rfl⟩

/-- C3: the code classifies the advertised example `"add calf born today
red tag"` as a Health/birth event (the health check fires on `"born"`
before the add check is reached), not as AddCattle with a `RED-` tag. -/
theorem C3_add_calf_born_classified_health (today : Date) :
    parse today "add calf born today red tag" =
      Except.ok ⟨CommandType.health,
        [("tag", vnone), ("event_type", vstr "birth"),
         ("details", vstr "add calf born today red tag"),
         ("date", Value.prim (Prim.pdate today))], 85 / 100,
        "add calf born today red tag"⟩ ∧
    CommandType.health ≠ CommandType.add_cattle :=
  ⟨rfl, by decide⟩

/-- The slots the specification lists for each intent (§3 of the spec). -/
def specListedSlots : CommandType → List String
  | CommandType.add_cattle => ["type", "breed", "birth_date", "tag", "location", "notes"]
  | CommandType.move => ["tag", "location"]
  | CommandType.health => ["tag", "event_type", "details", "date"]
  | CommandType.sale => ["head_count", "price_per_lb", "avg_weight", "cattle_type", "buyer", "date"]
  | CommandType.query => ["query_type", "filter"]
  | _ => []

/-- C4 counterexample: the fallback-inferred Health command for `"42 sick"`
carries only `tag`, `event_type` and `details` — the `date` key is absent
from the mapping, so not every Health command contains all four keys. -/
theorem C4_counterexample :
    parse ⟨2026, 10, 12⟩ "42 sick" =
      Except.ok ⟨CommandType.health,
        [("tag", vstr "42"), ("event_type", vstr "note"),
         ("details", vstr "sick")], 7 / 10, "42 sick"⟩ ∧
    getParam [("tag", vstr "42"), ("event_type", vstr "note"),
        ("details", vstr "sick")] "date" = none :=
  ⟨rfl, rfl⟩

/-- C4 amended: every command `parse` returns carries every slot listed
for its intent (with the explicit absent marker), *except* that a Health
command produced by the fallback inference path carries only `tag`,
`event_type` and `details`; and whenever a Health command does carry a
`date`, it is today's date. -/
theorem C4_slots_present_amended (today : Date) (input : String)
    (cmd : ParsedCommand) (h : parse today input = Except.ok cmd) :
    ((specListedSlots cmd.command_type).all
        (fun k => (getParam cmd.params k).isSome) = true ∨
      (cmd.command_type = CommandType.health ∧
        cmd.params.map Prod.fst = ["tag", "event_type", "details"])) ∧
    (cmd.command_type = CommandType.health →
      getParam cmd.params "date" = none ∨
      getParam cmd.params "date" = some (Value.prim (Prim.pdate today))) := by
  unfold parse parseCore at h
  dsimp only at h
  split_ifs at h with hc1 hc2 hc3 hc4 hc5 hc6 hc7
  · simp only [Except.ok.injEq] at h
    subst h
    exact ⟨Or.inl rfl, fun hx => absurd hx (by simp)⟩
  · simp only [Except.ok.injEq] at h
    subst h
    exact ⟨Or.inl rfl, fun hx => absurd hx (by simp)⟩
  · simp only [Except.ok.injEq] at h
    subst h
    refine ⟨Or.inl ?_, fun hx => absurd (hx ▸ parseQuery_ct today _ _) (by simp)⟩
    rw [parseQuery_ct]
    simp only [specListedSlots, List.all_eq_true]
    intro k hk
    refine getParam_isSome_of_mem _ _ ?_
    rw [parseQuery_keys]
    simpa using hk
  · obtain ⟨hct, -, -⟩ := parseSale_ok _ _ _ _ h
    have hkeys := parseSale_ok_keys _ _ _ _ h
    refine ⟨Or.inl ?_, fun hx => absurd (hct ▸ hx) (by simp)⟩
    rw [hct]
    simp only [specListedSlots, List.all_eq_true]
    intro k hk
    refine getParam_isSome_of_mem _ _ ?_
    rw [hkeys]
    simpa [saleKeys] using hk
  · simp only [Except.ok.injEq] at h
    subst h
    refine ⟨Or.inl ?_, fun _ => Or.inr (parseEvent_date _ _ _)⟩
    rw [parseEvent_ct]
    simp only [specListedSlots, List.all_eq_true]
    intro k hk
    refine getParam_isSome_of_mem _ _ ?_
    rw [parseEvent_keys]
    simpa using hk
  · simp only [Except.ok.injEq] at h
    subst h
    refine ⟨Or.inl ?_, fun hx => absurd (hx ▸ parseMove_ct _ _) (by simp)⟩
    rw [parseMove_ct]
    simp only [specListedSlots, List.all_eq_true]
    intro k hk
    refine getParam_isSome_of_mem _ _ ?_
    rw [parseMove_keys]
    simpa using hk
  · simp only [Except.ok.injEq] at h
    subst h
    refine ⟨Or.inl ?_, fun hx => absurd (hx ▸ parseAdd_ct today _ _) (by simp)⟩
    rw [parseAdd_ct]
    simp only [specListedSlots, List.all_eq_true]
    intro k hk
    refine getParam_isSome_of_mem _ _ ?_
    rw [parseAdd_keys]
    simpa [addKeys] using hk
  · simp only [Except.ok.injEq] at h
    subst h
    rcases inferCommand_shape (pyStrip input) (lowerStr (pyStrip input)) with
      ⟨d, r, he⟩ | he <;> rw [he]
    · exact ⟨Or.inr ⟨rfl, rfl⟩, fun _ => Or.inl rfl⟩
    · exact ⟨Or.inl rfl, fun hx => absurd hx (by simp)⟩

/-- Witness for the amended C4 at the concrete input
`"vet visit cow 15 pink eye"` (a Health command from the extractor). -/
theorem C4_slots_present_witness :
    parse ⟨2026, 10, 12⟩ "vet visit cow 15 pink eye" =
      Except.ok ⟨CommandType.health,
        [("tag", vstr "15"), ("event_type", vstr "vet"),
         ("details", vstr "Pink Eye"),
         ("date", Value.prim (Prim.pdate ⟨2026, 10, 12⟩))], 85 / 100,
        "vet visit cow 15 pink eye"⟩ ∧
    (((specListedSlots (⟨CommandType.health,
        [("tag", vstr "15"), ("event_type", vstr "vet"),
         ("details", vstr "Pink Eye"),
         ("date", Value.prim (Prim.pdate ⟨2026, 10, 12⟩))], 85 / 100,
        "vet visit cow 15 pink eye"⟩ : ParsedCommand).command_type).all
        (fun k => (getParam (⟨CommandType.health,
        [("tag", vstr "15"), ("event_type", vstr "vet"),
         ("details", vstr "Pink Eye"),
         ("date", Value.prim (Prim.pdate ⟨2026, 10, 12⟩))], 85 / 100,
        "vet visit cow 15 pink eye"⟩ : ParsedCommand).params k).isSome) = true ∨
      ((⟨CommandType.health,
        [("tag", vstr "15"), ("event_type", vstr "vet"),
         ("details", vstr "Pink Eye"),
         ("date", Value.prim (Prim.pdate ⟨2026, 10, 12⟩))], 85 / 100,
        "vet visit cow 15 pink eye"⟩ : ParsedCommand).command_type = CommandType.health ∧
        (⟨CommandType.health,
        [("tag", vstr "15"), ("event_type", vstr "vet"),
         ("details", vstr "Pink Eye"),
         ("date", Value.prim (Prim.pdate ⟨2026, 10, 12⟩))], 85 / 100,
        "vet visit cow 15 pink eye"⟩ : ParsedCommand).params.map Prod.fst =
          ["tag", "event_type", "details"])) ∧
      ((⟨CommandType.health,
        [("tag", vstr "15"), ("event_type", vstr "vet"),
         ("details", vstr "Pink Eye"),
         ("date", Value.prim (Prim.pdate ⟨2026, 10, 12⟩))], 85 / 100,
        "vet visit cow 15 pink eye"⟩ : ParsedCommand).command_type = CommandType.health →
        getParam (⟨CommandType.health,
        [("tag", vstr "15"), ("event_type", vstr "vet"),
         ("details", vstr "Pink Eye"),
         ("date", Value.prim (Prim.pdate ⟨2026, 10, 12⟩))], 85 / 100,
        "vet visit cow 15 pink eye"⟩ : ParsedCommand).params "date" = none ∨
        getParam (⟨CommandType.health,
        [("tag", vstr "15"), ("event_type", vstr "vet"),
         ("details", vstr "Pink Eye"),
         ("date", Value.prim (Prim.pdate ⟨2026, 10, 12⟩))], 85 / 100,
        "vet visit cow 15 pink eye"⟩ : ParsedCommand).params "date" =
          some (Value.prim (Prim.pdate ⟨2026, 10, 12⟩)))) :=
  ⟨rfl, C4_slots_present_amended ⟨2026, 10, 12⟩ "vet visit cow 15 pink eye" _ rfl⟩

/-- C5: for `"how many calves this month"` the code returns a Query with
`query_type = "count"` and `filter.since` = first of the current month,
but *no* `filter.type` key — the type scan tests the category name
`"calf"`, which is not a substring of the plural `"calves"` — contradicting
the spec's scenario `filter.type = "calf"`. -/
theorem C5_how_many_calves_no_type_filter (today : Date) :
    parse today "how many calves this month" =
      Except.ok ⟨CommandType.query,
        [("query_type", vstr "count"),
         ("filter", Value.pdict
            [("since", Prim.pdate ⟨today.year, today.month, 1⟩)])],
        85 / 100, "how many calves this month"⟩ ∧
    getPr [("since", Prim.pdate ⟨today.year, today.month, 1⟩)] "type" = none :=
  ⟨rfl, rfl⟩

/-- The parameter record extracted for the C6 sale scenario. -/
def saleScenarioParams (today : Date) : Params :=
  [("head_count", Value.prim (Prim.pint 5)),
   ("price_per_lb", Value.prim (Prim.pnum (185 / 100))),
   ("avg_weight", Value.prim (Prim.pnum 1100)),
   ("cattle_type", vstr "steer"), ("buyer", vnone),
   ("date", Value.prim (Prim.pdate today))]

/-- C6: `"sold 5 steers $1.85/lb avg 1100"` parses to a Sale with
head_count 5, price 1.85, average weight 1100 and cattle type steer, and
the rendered confirmation reports the amount 5 × 1.85 × 1100 = 10175. -/
theorem C6_sale_scenario (today : Date) (result : Params) :
    parse today "sold 5 steers $1.85/lb avg 1100" =
      Except.ok ⟨CommandType.sale, saleScenarioParams today, 9 / 10,
        "sold 5 steers $1.85/lb avg 1100"⟩ ∧
    saleAmt (saleScenarioParams today) = 5 * (185 / 100) * 1100 ∧
    generate_response ⟨CommandType.sale, saleScenarioParams today, 9 / 10,
        "sold 5 steers $1.85/lb avg 1100"⟩ result =
      "✓ Recorded sale: 5 steer(s) - $10,175" := by
  refine ⟨by with_unfolding_all rfl, ?_, ?_⟩
  · simp [saleAmt, saleScenarioParams, getD, getParam, vstr, vnone]
    norm_num
  · have h1 : saleAmt (saleScenarioParams today) = 10175 := by
      simp [saleAmt, saleScenarioParams, getD, getParam, vstr, vnone]
      norm_num
    unfold generate_response
    dsimp only
    rw [h1]
    rw [show moneyFmt 10175 = "10,175" from by with_unfolding_all rfl]
    rfl

/-- C7: every command classified Move carries confidence 0.9 when both the
tag and the location slot were resolved (non-absent), and 0.6 otherwise. -/
theorem C7_move_confidence (today : Date) (input : String)
    (cmd : ParsedCommand) (h : parse today input = Except.ok cmd)
    (hm : cmd.command_type = CommandType.move) :
    cmd.confidence =
      if getParam cmd.params "tag" ≠ some vnone ∧
          getParam cmd.params "location" ≠ some vnone
      then 9 / 10 else 6 / 10 := by
  unfold parse parseCore at h
  dsimp only at h
  split_ifs at h with hc1 hc2 hc3 hc4 hc5 hc6 hc7
  · simp only [Except.ok.injEq] at h
    subst h
    simp at hm
  · simp only [Except.ok.injEq] at h
    subst h
    simp at hm
  · simp only [Except.ok.injEq] at h
    subst h
    rw [parseQuery_ct] at hm
    simp at hm
  · obtain ⟨hct, -, -⟩ := parseSale_ok _ _ _ _ h
    rw [hct] at hm
    simp at hm
  · simp only [Except.ok.injEq] at h
    subst h
    rw [parseEvent_ct] at hm
    simp at hm
  · simp only [Except.ok.injEq] at h
    subst h
    exact parseMove_conf_iff _ _
  · simp only [Except.ok.injEq] at h
    subst h
    rw [parseAdd_ct] at hm
    simp at hm
  · simp only [Except.ok.injEq] at h
    subst h
    rcases inferCommand_shape (pyStrip input) (lowerStr (pyStrip input)) with
      ⟨d, r, he⟩ | he <;> rw [he] at hm <;> simp at hm

/-- Witness for C7 at `"cow 42 moved to north pasture"` (both slots
resolved, confidence 0.9). -/
theorem C7_move_confidence_witness :
    parse ⟨2026, 10, 12⟩ "cow 42 moved to north pasture" =
      Except.ok ⟨CommandType.move,
        [("tag", vstr "42"), ("location", vstr "North Pasture")], 9 / 10,
        "cow 42 moved to north pasture"⟩ ∧
    (⟨CommandType.move,
        [("tag", vstr "42"), ("location", vstr "North Pasture")], 9 / 10,
        "cow 42 moved to north pasture"⟩ : ParsedCommand).confidence =
      if getParam (⟨CommandType.move,
          [("tag", vstr "42"), ("location", vstr "North Pasture")], 9 / 10,
          "cow 42 moved to north pasture"⟩ : ParsedCommand).params "tag" ≠
            some vnone ∧
          getParam (⟨CommandType.move,
          [("tag", vstr "42"), ("location", vstr "North Pasture")], 9 / 10,
          "cow 42 moved to north pasture"⟩ : ParsedCommand).params "location" ≠
            some vnone
      then 9 / 10 else 6 / 10 :=
  ⟨rfl, C7_move_confidence ⟨2026, 10, 12⟩ "cow 42 moved to north pasture" _
    rfl rfl⟩

/-- Rule 8 of the cascade is reached: no classifier check matched. -/
def noClassifierMatch (lower : String) : Bool :=
  !helpLiterals.contains lower && !statusLiterals.contains lower &&
  !queryTrigger lower && !saleTrigger lower && !eventTrigger lower &&
  !moveTrigger lower && !addTrigger lower

/-- C8: when no classifier check matches, the fallback applies
`^(\d+)\s+(.+)$`: on a match whose remainder contains a distress keyword
the result is Health with the digits as tag, event_type `"note"`, the
remainder as details and confidence 0.7; otherwise the result is Unknown
with slots `{raw: text}` and confidence 0, and rendering it yields the
generic fallback acknowledgment. -/
theorem C8_fallback_inference (today : Date) (input : String)
    (h : noClassifierMatch (lowerStr (pyStrip input)) = true) :
    (∀ d g, inferSearch (pyStrip input).data = some (d, g) →
      distressWords.any (fun w => hasSub w.data (lowerCL g)) = true →
      parse today input =
        Except.ok ⟨CommandType.health,
          [("tag", vstr ⟨d⟩), ("event_type", vstr "note"),
           ("details", vstr ⟨lowerCL g⟩)], 7 / 10, pyStrip input⟩) ∧
    ((∀ d g, inferSearch (pyStrip input).data = some (d, g) →
        distressWords.any (fun w => hasSub w.data (lowerCL g)) = false) →
      parse today input =
        Except.ok ⟨CommandType.unknown, [("raw", vstr (pyStrip input))], 0,
          pyStrip input⟩ ∧
      ∀ res, generate_response
          ⟨CommandType.unknown, [("raw", vstr (pyStrip input))], 0,
            pyStrip input⟩ res =
        "Command received. Check dashboard for details.") := by
  simp only [noClassifierMatch, Bool.and_eq_true, Bool.not_eq_true'] at h
  obtain ⟨⟨⟨⟨⟨⟨h1, h2⟩, h3⟩, h4⟩, h5⟩, h6⟩, h7⟩ := h
  have hp : parse today input =
      Except.ok (inferCommand (pyStrip input) (lowerStr (pyStrip input))) := by
    unfold parse parseCore
    dsimp only
    simp only [h1, h2, h3, h4, h5, h6, h7, Bool.false_eq_true, if_false]
  constructor
  · intro d g hsearch hdist
    rw [hp]
    unfold inferCommand
    rw [hsearch]
    dsimp only
    rw [hdist]
    rfl
  · intro hnone
    have hinf : inferCommand (pyStrip input) (lowerStr (pyStrip input)) =
        ⟨CommandType.unknown, [("raw", vstr (pyStrip input))], 0,
          pyStrip input⟩ := by
      unfold inferCommand
      rcases hs : inferSearch (pyStrip input).data with _ | ⟨d, g⟩
      · rfl
      · dsimp only
        rw [hnone d g hs]
        rfl
    exact ⟨by rw [hp, hinf], fun res => rfl⟩

/-- Witness for C8 at `"99 limping"` (fallback Health case). -/
theorem C8_fallback_inference_witness :
    noClassifierMatch (lowerStr (pyStrip "99 limping")) = true ∧
    parse ⟨2026, 10, 12⟩ "99 limping" =
      Except.ok ⟨CommandType.health,
        [("tag", vstr ⟨"99".data⟩), ("event_type", vstr "note"),
         ("details", vstr ⟨lowerCL "limping".data⟩)], 7 / 10,
        pyStrip "99 limping"⟩ :=
  ⟨by decide,
    (C8_fallback_inference ⟨2026, 10, 12⟩ "99 limping" (by decide)).1
      "99".data "limping".data rfl rfl⟩

/-- C9: an input classified Query whose text contains none of the
sub-branch triggers `where`, `how many`, `count`, `total`, `list`, `show`,
`all` falls through every query sub-branch and yields
`query_type = "count"` with an empty filter mapping. -/
theorem C9_query_default_count (today : Date) (input : String)
    (cmd : ParsedCommand) (h : parse today input = Except.ok cmd)
    (hq : cmd.command_type = CommandType.query)
    (hw : containsStr (lowerStr (pyStrip input)) "where" = false)
    (hhm : containsStr (lowerStr (pyStrip input)) "how many" = false)
    (hcnt : containsStr (lowerStr (pyStrip input)) "count" = false)
    (htot : containsStr (lowerStr (pyStrip input)) "total" = false)
    (hlst : containsStr (lowerStr (pyStrip input)) "list" = false)
    (hshw : containsStr (lowerStr (pyStrip input)) "show" = false)
    (hall : containsStr (lowerStr (pyStrip input)) "all" = false) :
    cmd.params = [("query_type", vstr "count"), ("filter", Value.pdict [])] ∧
      cmd.confidence = 85 / 100 := by
  unfold parse parseCore at h
  dsimp only at h
  split_ifs at h with hc1 hc2 hc3 hc4 hc5 hc6 hc7
  · simp only [Except.ok.injEq] at h
    subst h
    simp at hq
  · simp only [Except.ok.injEq] at h
    subst h
    simp at hq
  · simp only [Except.ok.injEq] at h
    subst h
    unfold parseQuery
    dsimp only
    simp only [hw, hhm, hcnt, htot, hlst, hshw, hall, List.any_cons,
      List.any_nil, Bool.or_self, Bool.or_false, Bool.false_or,
      Bool.false_eq_true, if_false]
    exact ⟨trivial, trivial⟩
  · obtain ⟨hct, -, -⟩ := parseSale_ok _ _ _ _ h
    rw [hct] at hq
    simp at hq
  · simp only [Except.ok.injEq] at h
    subst h
    rw [parseEvent_ct] at hq
    simp at hq
  · simp only [Except.ok.injEq] at h
    subst h
    rw [parseMove_ct] at hq
    simp at hq
  · simp only [Except.ok.injEq] at h
    subst h
    rw [parseAdd_ct] at hq
    simp at hq
  · simp only [Except.ok.injEq] at h
    subst h
    rcases inferCommand_shape (pyStrip input) (lowerStr (pyStrip input)) with
      ⟨d, r, he⟩ | he <;> rw [he] at hq <;> simp at hq

/-- Witness for C9 at `"what cow"` (trigger `"what"` only). -/
theorem C9_query_default_count_witness :
    parse ⟨2026, 10, 12⟩ "what cow" =
      Except.ok ⟨CommandType.query,
        [("query_type", vstr "count"), ("filter", Value.pdict [])], 85 / 100,
        "what cow"⟩ ∧
    ((⟨CommandType.query,
        [("query_type", vstr "count"), ("filter", Value.pdict [])], 85 / 100,
        "what cow"⟩ : ParsedCommand).params =
      [("query_type", vstr "count"), ("filter", Value.pdict [])] ∧
      (⟨CommandType.query,
        [("query_type", vstr "count"), ("filter", Value.pdict [])], 85 / 100,
        "what cow"⟩ : ParsedCommand).confidence = 85 / 100) :=
  ⟨rfl, C9_query_default_count ⟨2026, 10, 12⟩ "what cow" _ rfl rfl
    (by decide) (by decide) (by decide) (by decide) (by decide) (by decide)
    (by decide)⟩

/-- C10: `parse` strips the input first — the raw_text of every returned
command is the stripped input, parsing is unchanged by leading/trailing
whitespace, and a Health command whose text matches no condition keyword
keeps the stripped text as its default details. -/
theorem C10_strip_semantics (today : Date) (input : String) :
    parse today (pyStrip input) = parse today input ∧
    (∀ cmd, parse today input = Except.ok cmd →
      cmd.raw_text = pyStrip input) ∧
    (∀ cmd, parse today input = Except.ok cmd →
      cmd.command_type = CommandType.health →
      eventTrigger (lowerStr (pyStrip input)) = true →
      conditionWords.find?
        (fun c => containsStr (lowerStr (pyStrip input)) c) = none →
      getParam cmd.params "details" = some (vstr (pyStrip input))) := by
  refine ⟨?_, ?_, ?_⟩
  · unfold parse
    rw [pyStrip_idem]
  · intro cmd h
    unfold parse parseCore at h
    dsimp only at h
    split_ifs at h with hc1 hc2 hc3 hc4 hc5 hc6 hc7
    · simp only [Except.ok.injEq] at h
      subst h
      rfl
    · simp only [Except.ok.injEq] at h
      subst h
      rfl
    · simp only [Except.ok.injEq] at h
      subst h
      exact parseQuery_raw _ _ _
    · exact (parseSale_ok _ _ _ _ h).2.2
    · simp only [Except.ok.injEq] at h
      subst h
      exact parseEvent_raw _ _ _
    · simp only [Except.ok.injEq] at h
      subst h
      exact parseMove_raw _ _
    · simp only [Except.ok.injEq] at h
      subst h
      exact parseAdd_raw _ _ _
    · simp only [Except.ok.injEq] at h
      subst h
      exact inferCommand_raw _ _
  · intro cmd h hh he hcond
    unfold parse parseCore at h
    dsimp only at h
    split_ifs at h with hc1 hc2 hc3 hc4
    · simp only [Except.ok.injEq] at h
      subst h
      simp at hh
    · simp only [Except.ok.injEq] at h
      subst h
      simp at hh
    · simp only [Except.ok.injEq] at h
      subst h
      rw [parseQuery_ct] at hh
      simp at hh
    · obtain ⟨hct, -, -⟩ := parseSale_ok _ _ _ _ h
      rw [hct] at hh
      simp at hh
    · simp only [Except.ok.injEq] at h
      subst h
      exact parseEvent_details_default _ _ _ hcond

/-- Witness for C10 at `"  saw the cow  "` (stripped to `"saw the cow"`,
a Health note whose details default to the stripped text). -/
theorem C10_strip_semantics_witness :
    parse ⟨2026, 10, 12⟩ (pyStrip "  saw the cow  ") =
      parse ⟨2026, 10, 12⟩ "  saw the cow  " ∧
    (⟨CommandType.health,
      [("tag", vnone), ("event_type", vstr "note"),
       ("details", vstr "saw the cow"),
       ("date", Value.prim (Prim.pdate ⟨2026, 10, 12⟩))], 85 / 100,
      "saw the cow"⟩ : ParsedCommand).raw_text = pyStrip "  saw the cow  " ∧
    getParam (⟨CommandType.health,
      [("tag", vnone), ("event_type", vstr "note"),
       ("details", vstr "saw the cow"),
       ("date", Value.prim (Prim.pdate ⟨2026, 10, 12⟩))], 85 / 100,
      "saw the cow"⟩ : ParsedCommand).params "details" =
      some (vstr (pyStrip "  saw the cow  ")) :=
  ⟨(C10_strip_semantics ⟨2026, 10, 12⟩ "  saw the cow  ").1,
    (C10_strip_semantics ⟨2026, 10, 12⟩ "  saw the cow  ").2.1 _ rfl,
    (C10_strip_semantics ⟨2026, 10, 12⟩ "  saw the cow  ").2.2 _ rfl rfl
      (by decide) (by decide)⟩

end FarmOps
